import Mathlib

/-!
Verification of the conversation-session core of `cyoa_bot.py`
(Educational Adventure Bot): an in-memory ordered list of chat messages,
a user-input handler guarded by Python truthiness, a blocking call to an
external inference collaborator per user turn, and a reset button.
-/

namespace CyoaBot

/-- Chat roles, as used by the message dictionaries in `cyoa_bot.py`. -/
inductive Role where
  | system
  | user
  | assistant
deriving DecidableEq, Repr

/-- A chat message: the `{"role": ..., "content": ...}` dictionaries of
`cyoa_bot.py`. -/
structure Message where
  role : Role
  content : String
deriving DecidableEq, Repr

/-- The fixed system guidance text from the initialization of
`st.session_state.messages` (also used verbatim by the reset button). -/
def systemGuidance : String :=
  "You are an educational choose-your-own-adventure guide. You MUST always stop after presenting choices to wait for user input. Never continue the story without user selection."

/-- The single-element message list installed when `\"messages\" not in
st.session_state` at session start. -/
def initialMessages : List Message :=
  [{ role := Role.system, content := systemGuidance }]

/-- The session-start initialization of `st.session_state.messages`. -/
def initSession : List Message := initialMessages

/-- The reset button handler: unconditionally replaces
`st.session_state.messages` with a fresh single-system-message list. -/
def reset (_msgs : List Message) : List Message :=
  [{ role := Role.system, content := systemGuidance }]

/-- The user-message append
`st.session_state.messages.append({"role": "user", "content": prompt})`. -/
def appendUser (msgs : List Message) (text : String) : List Message :=
  msgs ++ [{ role := Role.user, content := text }]

/-- The model identifier string passed to `run_conversation`. -/
def modelId : String := "ft:open-mistral-7b:f00b4002:20241120:78b6c5a8"

/-- One choice of a chat-completion response (`response.choices[i]`). -/
structure ChatChoice where
  message : Message
deriving DecidableEq, Repr

/-- A chat-completion response from the external client
(`client.chat.complete(...)`). -/
structure ChatResponse where
  choices : List ChatChoice
deriving DecidableEq, Repr

/-- The opaque external client `client.chat.complete`: takes the model id
and the message list, returns a response or fails (an exception carrying a
human-readable message, modelled as `Except.error`). -/
abbrev ClientComplete := String → List Message → Except String ChatResponse

/-- The function `run_conversation(messages, model_id)`: calls
`client.chat.complete(model=model_id, messages=messages)` and returns
`response.choices[0].message.content`. An empty `choices` list raises a
Python `IndexError`, modelled as the corresponding error message. -/
def run_conversation (complete : ClientComplete) (messages : List Message)
    (model_id : String) : Except String String :=
  match complete model_id messages with
  | Except.error e => Except.error e
  | Except.ok response =>
    match response.choices with
    | [] => Except.error "list index out of range"
    | choice :: _ => Except.ok choice.message.content

/-- Observable outcome of the assistant-turn block: the resulting message
list, the message list that was sent to the collaborator, the text written
to the UI for this turn (the response on success, the `st.error` text on
failure), and whether the error branch was taken. -/
structure ReplyOutcome where
  messages : List Message
  sent : List Message
  display : String
  isError : Bool
deriving DecidableEq, Repr

/-- The `requestReply` operation: the `try/except` block of the chat
handler.  It sends the current message list to `run_conversation`; on
success it writes the response and appends
`{"role": "assistant", "content": response}`; on any exception it leaves
the list unchanged and writes `st.error(f"An error occurred: {str(e)}")`. -/
def requestReply (complete : ClientComplete) (msgs : List Message) :
    ReplyOutcome :=
  match run_conversation complete msgs modelId with
  | Except.ok response =>
    { messages := msgs ++ [{ role := Role.assistant, content := response }]
      sent := msgs
      display := response
      isError := false }
  | Except.error e =>
    { messages := msgs
      sent := msgs
      display := "An error occurred: " ++ e
      isError := true }

/-- The chat-input handler `if prompt := st.chat_input(...)`: by Python
truthiness the body is skipped exactly when the submitted text is the
empty string (or no submission occurred, which we identify with `""`).
Otherwise it appends the user message and runs the assistant turn.
Returns the new message list and the assistant-turn outcome (`none` when
the guard suppressed the turn). -/
def chatHandler (complete : ClientComplete) (msgs : List Message)
    (prompt : String) : List Message × Option ReplyOutcome :=
  if prompt = "" then (msgs, none)
  else
    let msgs' := appendUser msgs prompt
    let out := requestReply complete msgs'
    (out.messages, some out)

/-- One user-visible event of the app: a chat submission (with the
collaborator's behavior for that turn) or a press of the reset button. -/
inductive Event where
  | chat (prompt : String) (complete : ClientComplete)
  | resetButton

/-- One step of the session state under an event. -/
def step (msgs : List Message) : Event → List Message
  | Event.chat prompt complete => (chatHandler complete msgs prompt).1
  | Event.resetButton => reset msgs

/-- The session state reached from session start by a list of events. -/
def runEvents (evs : List Event) : List Message :=
  evs.foldl step initSession

/-- The role sequence of a message list. -/
def rolesOf (msgs : List Message) : List Role :=
  msgs.map Message.role

/-- Strict user/assistant alternation, optionally ending in a trailing
unanswered user message: the shape asserted by the original invariant
claim for the roles after the system message. -/
def altUA : List Role → Bool
  | [] => true
  | [Role.user] => true
  | Role.user :: Role.assistant :: rs => altUA rs
  | _ => false

/-- Turn shape: a sequence of user turns, each optionally followed by one
assistant reply.  Equivalently: the first role (if any) is `user`, every
`assistant` immediately follows a `user`, and no `system` occurs. -/
def turnShape : List Role → Bool
  | [] => true
  | Role.user :: Role.assistant :: rs => turnShape rs
  | Role.user :: rs => turnShape rs
  | _ => false

/-- The session invariant: the first message is the system message and the
roles after it form user turns, each optionally followed by one assistant
reply. -/
def sessionInv (msgs : List Message) : Prop :=
  ∃ rs, rolesOf msgs = Role.system :: rs ∧ turnShape rs = true

/-- A concrete collaborator that always succeeds and replies `r`. -/
def okClient (r : String) : ClientComplete :=
  fun _ _ =>
    Except.ok { choices := [{ message := { role := Role.assistant, content := r } }] }

/-- A concrete collaborator that always fails with message `e`. -/
def failClient (e : String) : ClientComplete :=
  fun _ _ => Except.error e

/-- The message list sent by the assistant-turn block to the collaborator
is exactly its input message list, on both branches. -/
theorem requestReply_sent (complete : ClientComplete) (msgs : List Message) :
    (requestReply complete msgs).sent = msgs := by
  unfold requestReply
  cases run_conversation complete msgs modelId <;> rfl

/-- The input message list is a prefix of the resulting message list of the
assistant-turn block, on both branches. -/
theorem requestReply_messages_take (complete : ClientComplete)
    (msgs : List Message) :
    (requestReply complete msgs).messages.take msgs.length = msgs := by
  unfold requestReply
  cases run_conversation complete msgs modelId <;> simp

/-- C1: if the inference collaborator succeeds with text `r`, the
assistant-turn block (`requestReply`) increases the message sequence length
by exactly 1, the new last element is `{role := assistant, content := r}`,
and the text displayed for the assistant turn equals `r`. -/
theorem requestReply_success_appends (complete : ClientComplete)
    (msgs : List Message) (r : String)
    (h : run_conversation complete msgs modelId = Except.ok r) :
    (requestReply complete msgs).messages.length = msgs.length + 1 ∧
    (requestReply complete msgs).messages.getLast? =
      some { role := Role.assistant, content := r } ∧
    (requestReply complete msgs).display = r := by
  unfold requestReply
  rw [h]
  refine ⟨by simp, by simp, rfl⟩

/-- Witness for C1 at a concrete collaborator and state. -/
theorem requestReply_success_appends_witness :
    run_conversation (okClient "Volcanoes are...") initSession modelId =
      Except.ok "Volcanoes are..." ∧
    (requestReply (okClient "Volcanoes are...") initSession).messages.length =
      initSession.length + 1 ∧
    (requestReply (okClient "Volcanoes are...") initSession).messages.getLast? =
      some { role := Role.assistant, content := "Volcanoes are..." } ∧
    (requestReply (okClient "Volcanoes are...") initSession).display =
      "Volcanoes are..." :=
  ⟨rfl, requestReply_success_appends (okClient "Volcanoes are...") initSession
    "Volcanoes are..." rfl⟩

/-- C2: if the inference collaborator fails, the assistant-turn block
leaves the message sequence unchanged (in particular, same length and no
assistant message appended), and the failure is absorbed into an error
display at the call site (`isError`) instead of being propagated. -/
theorem requestReply_failure_preserves (complete : ClientComplete)
    (msgs : List Message) (e : String)
    (h : run_conversation complete msgs modelId = Except.error e) :
    (requestReply complete msgs).messages = msgs ∧
    (requestReply complete msgs).messages.length = msgs.length ∧
    (requestReply complete msgs).isError = true := by
  unfold requestReply
  rw [h]
  exact ⟨rfl, rfl, rfl⟩

/-- Witness for C2 at a concrete failing collaborator and state. -/
theorem requestReply_failure_preserves_witness :
    run_conversation (failClient "boom") initSession modelId =
      Except.error "boom" ∧
    (requestReply (failClient "boom") initSession).messages = initSession ∧
    (requestReply (failClient "boom") initSession).messages.length =
      initSession.length ∧
    (requestReply (failClient "boom") initSession).isError = true :=
  ⟨rfl, requestReply_failure_preserves (failClient "boom") initSession "boom" rfl⟩

/-- C3: on every call of the assistant turn (which happens exactly when the
submitted prompt is non-empty), the ordered message list sent to the
collaborator equals the full accumulated history at that point: all prior
messages, in insertion order, plus the user message just appended. -/
theorem chatHandler_sends_full_history (complete : ClientComplete)
    (msgs : List Message) (p : String) (hp : p ≠ "") :
    Option.map ReplyOutcome.sent (chatHandler complete msgs p).2 =
      some (appendUser msgs p) := by
  unfold chatHandler
  rw [if_neg hp]
  simp [requestReply_sent]

/-- Witness for C3 at a concrete prompt and state. -/
theorem chatHandler_sends_full_history_witness :
    "Tell me about volcanoes" ≠ "" ∧
    Option.map ReplyOutcome.sent
        (chatHandler (okClient "Volcanoes are...") initSession
          "Tell me about volcanoes").2 =
      some (appendUser initSession "Tell me about volcanoes") :=
  ⟨by decide,
    chatHandler_sends_full_history (okClient "Volcanoes are...") initSession
      "Tell me about volcanoes" (by decide)⟩

/-- C5 counterexample: a collaborator failure with message "rate limited"
is displayed as "An error occurred: rate limited", not as the verbatim
message "rate limited". -/
theorem errorDisplay_not_verbatim :
    (requestReply (failClient "rate limited") initSession).display =
      "An error occurred: rate limited" ∧
    (requestReply (failClient "rate limited") initSession).display ≠
      "rate limited" := by
  exact ⟨rfl, by decide⟩

/-- C5 amended: when the inference collaborator fails with message `m`,
the displayed error text equals the literal text "An error occurred: "
followed by `m`. -/
theorem errorDisplay_prefixed (complete : ClientComplete)
    (msgs : List Message) (m : String)
    (h : run_conversation complete msgs modelId = Except.error m) :
    (requestReply complete msgs).display = "An error occurred: " ++ m ∧
    (requestReply complete msgs).isError = true := by
  unfold requestReply
  rw [h]
  exact ⟨rfl, rfl⟩

/-- Witness for the amended C5 at the failure message "rate limited". -/
theorem errorDisplay_prefixed_witness :
    run_conversation (failClient "rate limited") initSession modelId =
      Except.error "rate limited" ∧
    (requestReply (failClient "rate limited") initSession).display =
      "An error occurred: " ++ "rate limited" ∧
    (requestReply (failClient "rate limited") initSession).isError = true :=
  ⟨rfl, errorDisplay_prefixed (failClient "rate limited") initSession
    "rate limited" rfl⟩

/-- C6: after session-start initialization or a reset from any prior state,
the message sequence has length exactly 1 and its sole element is the
system message carrying the fixed guidance text. -/
theorem init_reset_single_system (msgs : List Message) :
    initSession.length = 1 ∧
    initSession = [{ role := Role.system, content := systemGuidance }] ∧
    (reset msgs).length = 1 ∧
    reset msgs = [{ role := Role.system, content := systemGuidance }] :=
  ⟨rfl, rfl, rfl, rfl⟩

/-- C7: for every non-empty string `s`, appending a user message increases
the sequence length by exactly 1, the new last element is
`{role := user, content := s}`, and all earlier elements are unchanged. -/
theorem appendUser_appends (msgs : List Message) (s : String) (hs : s ≠ "") :
    (appendUser msgs s).length = msgs.length + 1 ∧
    (appendUser msgs s).getLast? = some { role := Role.user, content := s } ∧
    (appendUser msgs s).take msgs.length = msgs := by
  refine ⟨by simp [appendUser], by simp [appendUser], by simp [appendUser]⟩

/-- Witness for C7 at a concrete non-empty string and state. -/
theorem appendUser_appends_witness :
    "Tell me about volcanoes" ≠ "" ∧
    (appendUser initSession "Tell me about volcanoes").length =
      initSession.length + 1 ∧
    (appendUser initSession "Tell me about volcanoes").getLast? =
      some { role := Role.user, content := "Tell me about volcanoes" } ∧
    (appendUser initSession "Tell me about volcanoes").take initSession.length =
      initSession :=
  ⟨by decide,
    appendUser_appends initSession "Tell me about volcanoes" (by decide)⟩

/-- C8: reset is extensionally equal to the session-start initialization
and idempotent: from any state it produces the identical single
system-message sequence, with the same content as at session start. -/
theorem reset_eq_init_idempotent (msgs : List Message) :
    reset msgs = initSession ∧
    reset (reset msgs) = reset msgs ∧
    reset msgs = initialMessages :=
  ⟨rfl, rfl, rfl⟩

/-- C9: on an empty submitted input, the chat handler is a no-op: the
message list is unchanged and no assistant turn (hence no collaborator
call) takes place. -/
theorem chatHandler_empty_noop (complete : ClientComplete)
    (msgs : List Message) :
    chatHandler complete msgs "" = (msgs, none) := by
  simp [chatHandler]

/-- C10: a whitespace-only but non-empty submitted input passes the
truthiness guard: the user message `{role := user, content := s}` is
appended and the assistant turn proceeds, sending the appended history to
the collaborator. -/
theorem chatHandler_whitespace_processed (complete : ClientComplete)
    (msgs : List Message) (s : String) (hs : s ≠ "")
    (hw : s.toList.all Char.isWhitespace = true) :
    (chatHandler complete msgs s).2 =
      some (requestReply complete (appendUser msgs s)) ∧
    Option.map ReplyOutcome.sent (chatHandler complete msgs s).2 =
      some (msgs ++ [{ role := Role.user, content := s }]) ∧
    (chatHandler complete msgs s).1.take (msgs.length + 1) =
      msgs ++ [{ role := Role.user, content := s }] := by
  unfold chatHandler
  rw [if_neg hs]
  refine ⟨rfl, by simp [requestReply_sent, appendUser], ?_⟩
  have h := requestReply_messages_take complete (appendUser msgs s)
  simpa [appendUser] using h

/-- Witness for C10 at the single-space input. -/
theorem chatHandler_whitespace_processed_witness :
    " " ≠ "" ∧
    " ".toList.all Char.isWhitespace = true ∧
    (chatHandler (okClient "r") initSession " ").2 =
      some (requestReply (okClient "r") (appendUser initSession " ")) ∧
    Option.map ReplyOutcome.sent (chatHandler (okClient "r") initSession " ").2 =
      some (initSession ++ [{ role := Role.user, content := " " }]) ∧
    (chatHandler (okClient "r") initSession " ").1.take (initSession.length + 1) =
      initSession ++ [{ role := Role.user, content := " " }] :=
  ⟨by decide, by decide,
    chatHandler_whitespace_processed (okClient "r") initSession " "
      (by decide) (by decide)⟩

/-- Appending one unanswered user turn preserves the turn shape. -/
theorem turnShape_append_user (rs : List Role) :
    turnShape rs = true → turnShape (rs ++ [Role.user]) = true := by
  induction rs using turnShape.induct with
  | case1 => intro _; decide
  | case2 rs ih =>
      intro h
      simp only [turnShape] at h
      simpa [turnShape] using ih h
  | case3 rs hne ih =>
      intro h
      rcases rs with _ | ⟨r, t⟩
      · decide
      · cases r with
        | system => simp [turnShape] at h
        | assistant => exact (hne t rfl).elim
        | user =>
            simp only [turnShape] at h
            simpa [turnShape] using ih h
  | case4 t h1 h2 h3 =>
      intro h
      exfalso
      rcases t with _ | ⟨r, t⟩
      · exact h1 rfl
      · cases r with
        | system => simp [turnShape] at h
        | assistant => simp [turnShape] at h
        | user => exact h3 t rfl

/-- Appending one answered user turn (user then assistant) preserves the
turn shape. -/
theorem turnShape_append_pair (rs : List Role) :
    turnShape rs = true → turnShape (rs ++ [Role.user, Role.assistant]) = true := by
  induction rs using turnShape.induct with
  | case1 => intro _; decide
  | case2 rs ih =>
      intro h
      simp only [turnShape] at h
      simpa [turnShape] using ih h
  | case3 rs hne ih =>
      intro h
      rcases rs with _ | ⟨r, t⟩
      · decide
      · cases r with
        | system => simp [turnShape] at h
        | assistant => exact (hne t rfl).elim
        | user =>
            simp only [turnShape] at h
            simpa [turnShape] using ih h
  | case4 t h1 h2 h3 =>
      intro h
      exfalso
      rcases t with _ | ⟨r, t⟩
      · exact h1 rfl
      · cases r with
        | system => simp [turnShape] at h
        | assistant => simp [turnShape] at h
        | user => exact h3 t rfl

/-- Every step of the app preserves the session invariant. -/
theorem sessionInv_step (msgs : List Message) (e : Event)
    (h : sessionInv msgs) : sessionInv (step msgs e) := by
  obtain ⟨rs, hroles, hshape⟩ := h
  cases e with
  | resetButton => exact ⟨[], rfl, rfl⟩
  | chat prompt complete =>
      by_cases hp : prompt = ""
      · subst hp
        simpa [step, chatHandler] using ⟨rs, hroles, hshape⟩
      · simp only [step, chatHandler, if_neg hp]
        unfold requestReply
        cases hrc : run_conversation complete (appendUser msgs prompt) modelId with
        | ok r =>
            refine ⟨rs ++ [Role.user, Role.assistant], ?_,
              turnShape_append_pair rs hshape⟩
            simp [rolesOf, appendUser] at hroles ⊢
            simp [hroles]
        | error e =>
            refine ⟨rs ++ [Role.user], ?_, turnShape_append_user rs hshape⟩
            simp [rolesOf, appendUser] at hroles ⊢
            simp [hroles]

/-- C4 counterexample: the state reached from session start by a failed
turn on "a" followed by a successful turn on "b" has role sequence
system, user, user, assistant — two adjacent user messages in the middle
— so strict user/assistant alternation (with at most a trailing user)
does not hold in every reachable state. -/
theorem runEvents_altUA_counterexample :
    ¬ (∀ evs : List Event, ∃ rs,
        rolesOf (runEvents evs) = Role.system :: rs ∧ altUA rs = true) := by
  intro hall
  obtain ⟨rs, hroles, halt⟩ := hall
    [Event.chat "a" (failClient "e"), Event.chat "b" (okClient "r")]
  have hcomp : rolesOf (runEvents
      [Event.chat "a" (failClient "e"), Event.chat "b" (okClient "r")]) =
      [Role.system, Role.user, Role.user, Role.assistant] := by decide
  rw [hcomp] at hroles
  injection hroles with h1 h2
  rw [← h2] at halt
  simp [altUA] at halt

/-- C4 amended: in every state reachable from session start by any
sequence of chat submissions (with the collaborator succeeding or
failing) and reset presses, the roles are the system message followed by
a sequence of user turns, each optionally followed by one assistant
reply.  A failed turn may leave an unanswered user message anywhere in
the sequence (not only at the end), so strict alternation holds only up
to these unanswered user turns. -/
theorem runEvents_turnShape (evs : List Event) :
    ∃ rs, rolesOf (runEvents evs) = Role.system :: rs ∧ turnShape rs = true := by
  have hrun : ∀ msgs, sessionInv msgs → sessionInv (evs.foldl step msgs) := by
    induction evs with
    | nil => intro msgs h; exact h
    | cons e evs ih => intro msgs h; exact ih (step msgs e) (sessionInv_step msgs e h)
  exact hrun initSession ⟨[], rfl, rfl⟩

end CyoaBot
